import Mathlib

/-!
Shallow embedding of the PN532 NFC driver (src/firmware/src/lib/pn532.c).

Modelling conventions:
* Bytes are `Nat`; the C `uint8_t` arithmetic is made explicit with `% 256`.
  The transport applies `reverse_bit` to every byte in both directions; all
  byte values in this model are the logical (post-correction) values.
* The chip is the universally quantified input.  A command/response cycle
  consumes: the status bytes polled by `pn532_wait_ready` (one SPI status
  read per attempt, modelled as a function from the attempt index to the
  pair (spi result, status byte)), the 6 acknowledge bytes, and the byte
  stream of the response frame.  The bytes the host writes out do not
  influence this model because the response behaviour is quantified over.
* An SPI read of `k` bytes always clocks `k` bytes; a stream shorter than
  requested is padded with 0 (`takeWith0`).
* C functions that return `-1` on failure are embedded with `Option`
  (`none` = `-1`); where a caller inspects the integer itself an `Int`
  projection is provided.
-/

namespace PN532

/-- Read `k` bytes from a byte stream: the SPI master always clocks out `k`
bytes, missing stream bytes are modelled as 0. -/
def takeWith0 (s : List Nat) (k : Nat) : List Nat :=
  (List.range k).map (fun i => s.getD i 0)

/-- Behaviour of the chip during one `write_command` / `read_response`
cycle: status reads and acknowledge bytes for `read_ack`, then status reads
and the response frame byte stream for `pn532_read_response`. -/
structure ChipCmd where
  ackReady : Nat → Int × Nat
  ackBytes : List Nat
  respReady : Nat → Int × Nat
  respStream : List Nat

/-- Loop body of `pn532_wait_ready` (pn532.c:124): attempt index `i`,
`calls` counts invocations of the registered `wait_loop` idle callback
(the model assumes a callback is registered), `fuel` the remaining
attempts.  Each attempt does a STATUS_READ of one byte; success is spi
result 1 and status byte 0x01; otherwise the idle callback runs and the
loop retries. -/
def pn532_wait_ready_go (reads : Nat → Int × Nat) : Nat → Nat → Nat → Bool × Nat
  | _, calls, 0 => (false, calls)
  | i, calls, fuel + 1 =>
    let r := reads i
    if r.1 = 1 ∧ r.2 = 1 then (true, calls)
    else pn532_wait_ready_go reads (i + 1) (calls + 1) fuel

/-- `pn532_wait_ready` (pn532.c:124): up to 30 status-read attempts;
returns (success, number of idle-callback invocations). -/
def pn532_wait_ready (reads : Nat → Int × Nat) : Bool × Nat :=
  pn532_wait_ready_go reads 0 0 30

/-- `read_ack` (pn532.c:154): wait for ready, then read 6 bytes and
compare with the fixed acknowledge pattern 00 00 FF 00 FF 00. -/
def read_ack (c : ChipCmd) : Bool :=
  (pn532_wait_ready c.ackReady).1 && (takeWith0 c.ackBytes 6 == [0, 0, 255, 0, 255, 0])

/-- Frame built by `pn532_write_data` (pn532.c:174): preamble, start bytes,
length, length checksum `(~len + 1)` as uint8, payload, payload checksum
`~(0xff + sum)` as uint8, postamble. -/
def pn532_write_data_frame (data : List Nat) : List Nat :=
  [0, 0, 255, data.length, (256 - data.length) % 256]
    ++ data ++ [255 - (255 + data.sum) % 256, 0]

/-- Return value of `pn532_write_data` (pn532.c:174): the C function
returns `read_ack()`, a bool implicitly converted to int, so its value is
0 or 1 and never negative. -/
def pn532_write_data_ret (c : ChipCmd) : Int :=
  if read_ack c then 1 else 0

/-- Return value of `pn532_write_command` (pn532.c:224): direction byte and
command are prepended to the parameters and the result of
`pn532_write_data` is passed through unchanged (0 or 1). -/
def pn532_write_command_ret (c : ChipCmd) : Int :=
  pn532_write_data_ret c

/-- `pn532_read_data` (pn532.c:198): reads `len + 2` bytes (modelled as the
given `resp` list), checks the full read, the payload checksum over the
first `len + 1` bytes (uint8 accumulation, i.e. sum mod 256) and the
postamble; on success the C function returns `len` and the first `len + 1`
bytes are in the output buffer, of which the first `len` are the payload
returned here. -/
def pn532_read_data (len : Nat) (resp : List Nat) : Option (List Nat) :=
  if resp.length ≠ len + 2 then none
  else if ((resp.take (len + 1)).sum) % 256 ≠ 0 then none
  else if resp.getD (len + 1) 0 ≠ 0 then none
  else some (resp.take len)

/-- `pn532_peak_response_len` (pn532.c:235): reads 5 header bytes, checks
preamble, the two start bytes and the length checksum (uint8 addition);
returns the declared payload length, `none` embedding the C `-1`. -/
def pn532_peak_response_len (buf : List Nat) : Option Nat :=
  if buf.getD 0 0 ≠ 0 ∨ buf.getD 1 0 ≠ 0 ∨ buf.getD 2 0 ≠ 255 then none
  else if (buf.getD 3 0 + buf.getD 4 0) % 256 ≠ 0 then none
  else some (buf.getD 3 0)

/-- `pn532_read_response` (pn532.c:256): wait for ready, peek the header,
reject declared lengths below 2, read and validate the payload, then check
the direction byte (0xD5, CHIP to HOST) and the command echo `cmd + 1`
(an int comparison in C, not mod 256), the body length against the buffer
capacity, and that the body is nonempty.  `none` embeds the C `-1`; on
success the body (payload minus the two leading bytes) is returned, whose
length is the C return value. -/
def pn532_read_response (cmd maxLen : Nat) (c : ChipCmd) : Option (List Nat) :=
  if (pn532_wait_ready c.respReady).1 = false then none
  else
    match pn532_peak_response_len (takeWith0 c.respStream 5) with
    | none => none
    | some real_len =>
      if real_len < 2 then none
      else
        match pn532_read_data real_len (takeWith0 (c.respStream.drop 5) (real_len + 2)) with
        | none => none
        | some data =>
          if data.getD 0 0 ≠ 0xd5 ∨ data.getD 1 0 ≠ cmd + 1 then none
          else if real_len - 2 > maxLen then none
          else if real_len - 2 = 0 then none
          else some (data.drop 2)

/-- Integer return value of `pn532_read_response`: `-1` on failure, the
body length on success (pn532.c returns `data_len`). -/
def pn532_read_response_ret (cmd maxLen : Nat) (c : ChipCmd) : Int :=
  match pn532_read_response cmd maxLen c with
  | none => -1
  | some body => body.length

/-- `pn532_read_response` writing into a caller buffer (the shared
`readbuf` in pn532.c:351): on failure the buffer keeps its previous
contents; on success `memcpy` overwrites its first `body.length` bytes. -/
def pn532_read_response_into (cmd maxLen : Nat) (buf : List Nat) (c : ChipCmd) :
    Int × List Nat :=
  match pn532_read_response cmd maxLen c with
  | none => (-1, buf)
  | some body => (body.length, body ++ buf.drop body.length)

/-- `pn532_firmware_ver` (pn532.c:296): command 0x02 with no parameters;
the dead `ret < 0` check (the write returns 0 or 1); response body read
into a 4-byte buffer; any result below 4 gives the sentinel 0; otherwise
the 4 body bytes are packed big-endian into a uint32 (shifts wrap mod
2^32; bytes are uint8, hence the `% 256`). -/
def pn532_firmware_ver (c : ChipCmd) : Nat :=
  if pn532_write_command_ret c < 0 then 0
  else
    match pn532_read_response 2 4 c with
    | none => 0
    | some body =>
      if body.length < 4 then 0
      else (takeWith0 body 4).foldl (fun v b => (v * 256 + b % 256) % 4294967296) 0

/-- `pn532_config_rf` (pn532.c:317): writes command 0x32 (the write result
is discarded) and succeeds iff `pn532_read_response` returns exactly 0;
the response buffer is the 4-byte parameter array. -/
def pn532_config_rf (c : ChipCmd) : Bool :=
  pn532_read_response_ret 0x32 4 c == 0

/-- `pn532_config_sam` (pn532.c:325): writes command 0x14 (the write result
is discarded) and succeeds iff `pn532_read_response` returns exactly 0;
the response buffer holds a single byte. -/
def pn532_config_sam (c : ChipCmd) : Bool :=
  pn532_read_response_ret 0x14 1 c == 0

/-- Session cache for FeliCa (family-B) tags, `felica_poll_cache`
(pn532.c:377). -/
structure FelicaCache where
  idm : List Nat
  pmm : List Nat
  syscode : List Nat
  inlist_tag : Nat
deriving DecidableEq, Repr

/-- `pn532_poll_felica` (pn532.c:384), both modes.  Result components:
the outputs (`none` embeds returning false, in which case the caller
arrays are untouched), the cache after the call, the shared `readbuf`
after the call, and whether any transport exchange was performed (the
cached mode returns before any transport call).  The fresh mode sends
command 0x4a, requires the response length to be exactly 22, the tag
count byte 1 and the sub-length byte 20, then fills the cache (18 bytes
copied from offset 4: idm, pmm, syscode, plus the inlist tag from offset
1) and the caller arrays from the same offsets. -/
def pn532_poll_felica (from_cache : Bool) (cache : FelicaCache) (buf : List Nat)
    (c : ChipCmd) :
    Option (List Nat × List Nat × List Nat) × FelicaCache × List Nat × Bool :=
  if from_cache then
    (some (takeWith0 cache.idm 8, takeWith0 cache.pmm 8, takeWith0 cache.syscode 2),
      cache, buf, false)
  else
    if pn532_write_command_ret c < 0 then (none, cache, buf, true)
    else
      let pr := pn532_read_response_into 0x4a 255 buf c
      if pr.1 ≠ 22 ∨ pr.2.getD 0 0 ≠ 1 ∨ pr.2.getD 2 0 ≠ 20 then (none, cache, pr.2, true)
      else
        let cache2 : FelicaCache :=
          ⟨takeWith0 (pr.2.drop 4) 8, takeWith0 (pr.2.drop 12) 8,
            takeWith0 (pr.2.drop 20) 2, pr.2.getD 1 0⟩
        (some (takeWith0 (pr.2.drop 4) 8, takeWith0 (pr.2.drop 12) 8,
          takeWith0 (pr.2.drop 20) 2), cache2, pr.2, true)

/-- `pn532_mifare_auth` (pn532.c:415): sends the in-data-exchange command
0x40 (dead `ret < 0` check: the write returns 0 or 1), then reads the
response into the shared `readbuf` WITHOUT checking the read result, and
succeeds iff `readbuf[0]` is 0 after the read. -/
def pn532_mifare_auth (uid : List Nat) (block_id key_id : Nat) (key : List Nat)
    (buf : List Nat) (c : ChipCmd) : Bool × List Nat :=
  if pn532_write_command_ret c < 0 then (false, buf)
  else
    let pr := pn532_read_response_into 0x40 255 buf c
    if pr.2.getD 0 0 ≠ 0 then (false, pr.2) else (true, pr.2)

/-- `memmove(readbuf, readbuf + 2, n)` (pn532.c:486 with `outbuf` being the
shared `readbuf` at every call site): the first `n` bytes are shifted down
by two, the rest of the buffer keeps its old values. -/
def memmoveShift (rb : List Nat) (n : Nat) : List Nat :=
  takeWith0 (rb.drop 2) n ++ rb.drop n

/-- `pn532_felica_command` (pn532.c:462): wraps the command with the cached
inlist tag and idm (outbound bytes, irrelevant to the quantified chip
behaviour), sends it as command 0x40 (dead `ret < 0` check), reads the
response into the shared `readbuf` without checking the result, derives
`outlen = readbuf[1] - 1` (int arithmetic), requires the low 6 status bits
of `readbuf[0]` to be 0 (`& 0x3f`, i.e. mod 64) and `result - 2 = outlen`,
then shifts the inner body down by two.  A negative `outlen` passing the
checks (result 1) makes the C `memmove` undefined; it is modelled as a
shift of 0 bytes via `Int.toNat`. -/
def pn532_felica_command (cmd : Nat) (param : List Nat) (cache : FelicaCache)
    (buf : List Nat) (c : ChipCmd) : Int × List Nat :=
  if pn532_write_command_ret c < 0 then (-1, buf)
  else
    let pr := pn532_read_response_into 0x40 255 buf c
    let outlen : Int := (pr.2.getD 1 0 : Int) - 1
    if pr.2.getD 0 0 % 64 ≠ 0 ∨ pr.1 - 2 ≠ outlen then (-1, pr.2)
    else (outlen, memmoveShift pr.2 outlen.toNat)

/-- Parameter block built by `pn532_felica_read` and `pn532_felica_write`
(pn532.c:494, 513): one service entry (little-endian service code) and one
block entry (big-endian block number); `uint16_t` fields. -/
def felicaBlockParam (svc blk : Nat) : List Nat :=
  [1, svc % 256, svc / 256 % 256, 1, blk / 256 % 256, blk % 256]

/-- `pn532_felica_read` (pn532.c:492): FeliCa command 0x06 through
`pn532_felica_command` with `readbuf` as the output buffer; when the
result is not 28 = 12 + 16 or either per-block status byte (offsets 9
and 10) is nonzero, the 16 output bytes are zero-filled and the function
STILL returns true; otherwise the 16 data bytes at offset 12 are copied
out.  Result components: success flag, the 16 output bytes, `readbuf`
after the call. -/
def pn532_felica_read (svc blk : Nat) (cache : FelicaCache) (buf : List Nat)
    (c : ChipCmd) : Bool × List Nat × List Nat :=
  let pr := pn532_felica_command 6 (felicaBlockParam svc blk) cache buf c
  if pr.1 ≠ 28 ∨ pr.2.getD 9 0 ≠ 0 ∨ pr.2.getD 10 0 ≠ 0 then
    (true, List.replicate 16 0, pr.2)
  else
    (true, takeWith0 (pr.2.drop 12) 16, pr.2)

/-- `pn532_felica_write` (pn532.c:511): FeliCa command 0x08 with the 16
data bytes appended to the service/block header; returns false on the
error path (negative result) and ALSO returns false on the success path
(pn532.c:527). -/
def pn532_felica_write (svc blk : Nat) (data16 : List Nat) (cache : FelicaCache)
    (buf : List Nat) (c : ChipCmd) : Bool × List Nat :=
  let pr := pn532_felica_command 8 (felicaBlockParam svc blk ++ takeWith0 data16 16)
    cache buf c
  if pr.1 < 0 then (false, pr.2) else (false, pr.2)

/-- Chip-select events: `low` asserts (gpio 0), `high` releases (gpio 1). -/
inductive CSEv
  | low
  | high
deriving DecidableEq, Repr

/-- Chip-select state after a list of events, starting released;
`true` means the line is left asserted (low). -/
def csAssertedAfter (tr : List CSEv) : Bool :=
  tr.foldl (fun _ e => match e with | CSEv.low => true | CSEv.high => false) false

/-- Chip-select trace of `pn532_read_response` (pn532.c:256).  Every
`pn532_wait_ready` attempt is fully bracketed (`pn532_begin_read` then
`pn532_end_read`, pn532.c:127-130).  After a successful wait,
`pn532_begin_read(DATA_READ)` asserts the line; the early returns for a
failed header peek and for a declared length below 2 (pn532.c:265-271)
return without `pn532_end_read`, while the path through `pn532_read_data`
releases the line (pn532.c:275) before the remaining checks. -/
def pn532_read_response_trace (c : ChipCmd) : List CSEv :=
  let w := pn532_wait_ready c.respReady
  let wrTrace := (List.replicate (w.2 + (if w.1 then 1 else 0)) [CSEv.low, CSEv.high]).flatten
  if w.1 = false then wrTrace
  else
    match pn532_peak_response_len (takeWith0 c.respStream 5) with
    | none => wrTrace ++ [CSEv.low]
    | some real_len =>
      if real_len < 2 then wrTrace ++ [CSEv.low]
      else wrTrace ++ [CSEv.low, CSEv.high]

/-! ## Helper lemmas -/

theorem takeWith0_length (s : List Nat) (k : Nat) : (takeWith0 s k).length = k := by
  simp [takeWith0]

theorem takeWith0_eq_take (s : List Nat) (k : Nat) (h : k ≤ s.length) :
    takeWith0 s k = s.take k := by
  apply List.ext_getElem
  · simp [takeWith0, Nat.min_eq_left h]
  · intro i h1 h2
    simp only [takeWith0, List.getElem_map, List.getElem_range, List.getElem_take]
    exact List.getD_eq_getElem s 0 (lt_of_lt_of_le (by simpa [takeWith0] using h1) h)

theorem takeWith0_of_length_eq (s : List Nat) (k : Nat) (h : s.length = k) :
    takeWith0 s k = s := by
  rw [takeWith0_eq_take s k (le_of_eq h.symm), ← h, List.take_length]

theorem takeWith0_idem (s : List Nat) (k : Nat) :
    takeWith0 (takeWith0 s k) k = takeWith0 s k :=
  takeWith0_of_length_eq _ _ (takeWith0_length s k)

/-- Core round trip of the frame codec: the section of a
`pn532_write_data` frame after the 5 header bytes decodes back to the
payload via `pn532_read_data`. -/
theorem write_frame_read_data (data : List Nat) :
    pn532_read_data data.length ((pn532_write_data_frame data).drop 5) = some data := by
  have hdrop : (pn532_write_data_frame data).drop 5
      = data ++ [255 - (255 + data.sum) % 256, 0] := by
    simp [pn532_write_data_frame]
  rw [hdrop]
  have hlen : (data ++ [255 - (255 + data.sum) % 256, 0]).length = data.length + 2 := by
    simp
  have htake1 : (data ++ [255 - (255 + data.sum) % 256, 0]).take (data.length + 1)
      = data ++ [255 - (255 + data.sum) % 256] := by
    rw [List.take_append_eq_append_take, List.take_of_length_le (Nat.le_succ _)]
    simp
  have hsum : ((data ++ [255 - (255 + data.sum) % 256]).sum) % 256 = 0 := by
    rw [List.sum_append]
    simp only [List.sum_cons, List.sum_nil, Nat.add_zero]
    have hd := Nat.div_add_mod (255 + data.sum) 256
    have hm : (255 + data.sum) % 256 < 256 := Nat.mod_lt _ (by norm_num)
    have h2 : data.sum + (255 - (255 + data.sum) % 256)
        = 256 * ((255 + data.sum) / 256) := by omega
    rw [h2, Nat.mul_mod_right]
  have hpost : (data ++ [255 - (255 + data.sum) % 256, 0]).getD (data.length + 1) 0 = 0 := by
    rw [List.getD_append_right data _ 0 (data.length + 1) (by omega)]
    simp
  have htake0 : (data ++ [255 - (255 + data.sum) % 256, 0]).take data.length = data :=
    List.take_left data _
  rw [pn532_read_data, if_neg (by omega), htake1, if_neg (by rw [hsum]; simp)]
  rw [if_neg (by rw [hpost]; simp), htake0]

theorem wait_ready_go_calls_le (reads : Nat → Int × Nat) :
    ∀ fuel i calls, (pn532_wait_ready_go reads i calls fuel).2 ≤ calls + fuel := by
  intro fuel
  induction fuel with
  | zero => intro i calls; simp [pn532_wait_ready_go]
  | succ n ih =>
    intro i calls
    rw [pn532_wait_ready_go]
    split
    · simp
    · calc (pn532_wait_ready_go reads (i + 1) (calls + 1) n).2
          ≤ calls + 1 + n := ih (i + 1) (calls + 1)
        _ = calls + (n + 1) := by omega

theorem wait_ready_go_false_iff (reads : Nat → Int × Nat) :
    ∀ fuel i calls, (pn532_wait_ready_go reads i calls fuel).1 = false ↔
      ∀ j, j < fuel → ¬((reads (i + j)).1 = 1 ∧ (reads (i + j)).2 = 1) := by
  intro fuel
  induction fuel with
  | zero => intro i calls; simp [pn532_wait_ready_go]
  | succ n ih =>
    intro i calls
    rw [pn532_wait_ready_go]
    split
    · rename_i hyes
      simp only [Bool.true_eq_false, false_iff, not_forall]
      exact ⟨0, Nat.succ_pos n, not_not_intro (by simpa using hyes)⟩
    · rename_i hno
      rw [ih (i + 1) (calls + 1)]
      constructor
      · intro hall j hj
        match j with
        | 0 => simpa using hno
        | Nat.succ m =>
          have := hall m (by omega)
          simpa [Nat.add_comm, Nat.add_assoc, Nat.add_left_comm] using this
      · intro hall j hj
        have := hall (j + 1) (by omega)
        simpa [Nat.add_comm, Nat.add_assoc, Nat.add_left_comm] using this

/-- Status-read behaviour where the chip never reports ready. -/
def neverReady : Nat → Int × Nat := fun _ => (0, 0)

/-- Status-read behaviour where the chip is ready at once: a full 1-byte
read with status 0x01. -/
def readyNow : Nat → Int × Nat := fun _ => (1, 1)

/-! ## Claims -/

/-- Claim C2, counterexample: when the chip never reports ready, every
one of the 30 attempts fails and the registered idle callback is invoked
30 times, not at most `max_attempts - 1 = 29` as the claim states. -/
theorem claim_C2_cex : ¬((pn532_wait_ready neverReady).2 ≤ 29) := by decide

/-- Claim C2 (amended): for every sequence of chip status reads,
`pn532_wait_ready` invokes the registered idle callback at most
`max_attempts = 30` times (once per failed attempt), and returns false
exactly when no status read within the 30 attempts yields a full 1-byte
read (spi result 1) whose value is 0x01. -/
theorem claim_C2 (reads : Nat → Int × Nat) :
    (pn532_wait_ready reads).2 ≤ 30 ∧
      ((pn532_wait_ready reads).1 = false ↔
        ∀ j, j < 30 → ¬((reads j).1 = 1 ∧ (reads j).2 = 1)) := by
  constructor
  · simpa using wait_ready_go_calls_le reads 30 0 0
  · simpa using wait_ready_go_false_iff reads 30 0 0

/-- Claim C2, instantiation of the amended theorem at a concrete run. -/
theorem claim_C2_witness :
    (pn532_wait_ready neverReady).2 ≤ 30 ∧
      ((pn532_wait_ready neverReady).1 = false ↔
        ∀ j, j < 30 → ¬((neverReady j).1 = 1 ∧ (neverReady j).2 = 1)) :=
  claim_C2 neverReady

/-- Claim C3: for every payload of length `n ≤ 255` (uint8 bytes),
encoding with the `pn532_write_data` frame layout and decoding the
post-header section with `pn532_read_data n` succeeds and recovers the
payload exactly (the C return value is then `n`, embedded as
`some payload` with `payload.length = n`). -/
theorem claim_C3 (data : List Nat) (hlen : data.length ≤ 255)
    (hbytes : ∀ b ∈ data, b < 256) :
    pn532_read_data data.length ((pn532_write_data_frame data).drop 5) = some data :=
  write_frame_read_data data

/-- Claim C3, witness: a concrete 3-byte command payload round-trips. -/
theorem claim_C3_witness :
    [0xd4, 0x02, 0x37].length ≤ 255 ∧ (∀ b ∈ [0xd4, 0x02, 0x37], b < 256) ∧
      pn532_read_data 3 ((pn532_write_data_frame [0xd4, 0x02, 0x37]).drop 5)
        = some [0xd4, 0x02, 0x37] :=
  ⟨by decide, by decide, claim_C3 [0xd4, 0x02, 0x37] (by decide) (by decide)⟩

theorem read_data_length (len : Nat) (resp : List Nat) (data : List Nat)
    (h : pn532_read_data len resp = some data) : data.length = len := by
  rw [pn532_read_data] at h
  split at h
  · exact absurd h (by simp)
  · split at h
    · exact absurd h (by simp)
    · split at h
      · exact absurd h (by simp)
      · rename_i hlen _ _
        rw [Option.some_inj] at h
        rw [← h, List.length_take]
        omega

/-- An accepted response always has a nonempty body: `pn532_read_response`
rejects declared lengths below 2 and a body length of 0. -/
theorem read_response_body_nonempty (cmd maxLen : Nat) (c : ChipCmd) (body : List Nat)
    (h : pn532_read_response cmd maxLen c = some body) : 1 ≤ body.length := by
  rw [pn532_read_response] at h
  split at h
  · exact absurd h (by simp)
  · split at h
    · exact absurd h (by simp)
    · rename_i real_len _
      split at h
      · exact absurd h (by simp)
      · split at h
        · exact absurd h (by simp)
        · rename_i data hdata
          split at h
          · exact absurd h (by simp)
          · split at h
            · exact absurd h (by simp)
            · split at h
              · exact absurd h (by simp)
              · rename_i hlow _ hzero
                rw [Option.some_inj] at h
                rw [← h, List.length_drop, read_data_length _ _ _ hdata]
                omega

/-- Claim C1: `pn532_config_rf` and `pn532_config_sam` return true exactly
when the chip response is accepted by `pn532_read_response` with a
zero-length body (C return value 0).  Both sides are unsatisfiable — the
validator treats an empty body (declared length at most 2) as malformed
and returns -1 — so the two configuration commands can in fact never
report success. -/
theorem claim_C1 (c : ChipCmd) :
    (pn532_config_rf c = true ↔ pn532_read_response 0x32 4 c = some []) ∧
      (pn532_config_sam c = true ↔ pn532_read_response 0x14 1 c = some []) := by
  constructor
  · constructor
    · intro h
      rw [pn532_config_rf, pn532_read_response_ret] at h
      split at h
      · exact absurd h (by decide)
      · rename_i body hbody
        have h1 := read_response_body_nonempty _ _ _ _ hbody
        have h0 : (body.length : Int) = 0 := beq_iff_eq.mp h
        omega
    · intro h
      have := read_response_body_nonempty _ _ _ _ h
      simp at this
  · constructor
    · intro h
      rw [pn532_config_sam, pn532_read_response_ret] at h
      split at h
      · exact absurd h (by decide)
      · rename_i body hbody
        have h1 := read_response_body_nonempty _ _ _ _ hbody
        have h0 : (body.length : Int) = 0 := beq_iff_eq.mp h
        omega
    · intro h
      have := read_response_body_nonempty _ _ _ _ h
      simp at this

/-- Claim C7: `pn532_felica_read` reports success on every path; on a
result other than 28 or a nonzero status byte at offset 9 or 10 it
zero-fills the 16 output bytes and still returns true, otherwise it
returns the 16 bytes at offset 12. -/
theorem claim_C7 (svc blk : Nat) (cache : FelicaCache) (buf : List Nat) (c : ChipCmd) :
    (pn532_felica_read svc blk cache buf c).1 = true ∧
      (pn532_felica_read svc blk cache buf c).2.1 =
        (if (pn532_felica_command 6 (felicaBlockParam svc blk) cache buf c).1 ≠ 28 ∨
            (pn532_felica_command 6 (felicaBlockParam svc blk) cache buf c).2.getD 9 0 ≠ 0 ∨
            (pn532_felica_command 6 (felicaBlockParam svc blk) cache buf c).2.getD 10 0 ≠ 0
          then List.replicate 16 0
          else takeWith0
            ((pn532_felica_command 6 (felicaBlockParam svc blk) cache buf c).2.drop 12) 16) := by
  rw [pn532_felica_read]
  split
  · exact ⟨rfl, rfl⟩
  · exact ⟨rfl, rfl⟩

/-- Claim C8: `pn532_felica_write` returns false on every input and chip
response — on the error path and also on the path where the FeliCa
exchange returned a nonnegative result. -/
theorem claim_C8 (svc blk : Nat) (data16 : List Nat) (cache : FelicaCache)
    (buf : List Nat) (c : ChipCmd) :
    (pn532_felica_write svc blk data16 cache buf c).1 = false := by
  rw [pn532_felica_write]
  split <;> rfl

/-- Claim C10: `pn532_mifare_auth` never checks the result of
`pn532_read_response`; when the response read fails (returns -1, leaving
the shared `readbuf` untouched) and the first byte of `readbuf` is 0, it
reports authentication success. -/
theorem claim_C10 (uid : List Nat) (block_id key_id : Nat) (key : List Nat)
    (buf : List Nat) (c : ChipCmd)
    (hfail : pn532_read_response 0x40 255 c = none)
    (hbuf : buf.getD 0 0 = 0) :
    (pn532_mifare_auth uid block_id key_id key buf c).1 = true := by
  rw [pn532_mifare_auth]
  have hret : ¬ pn532_write_command_ret c < 0 := by
    rw [pn532_write_command_ret, pn532_write_data_ret]
    split <;> decide
  rw [if_neg hret]
  have hinto : pn532_read_response_into 0x40 255 buf c = (-1, buf) := by
    rw [pn532_read_response_into, hfail]
  rw [hinto]
  rw [List.getD_eq_getElem?_getD] at hbuf
  simp [hbuf]

/-- Claim C10, witness: the chip never reports ready, so the response read
fails; with an all-zero `readbuf` the authentication still reports
success. -/
theorem claim_C10_witness :
    pn532_read_response 0x40 255 ⟨readyNow, [], neverReady, []⟩ = none ∧
      (List.replicate 255 0).getD 0 0 = 0 ∧
      (pn532_mifare_auth [1, 2, 3, 4] 0 0 [0, 0, 0, 0, 0, 0] (List.replicate 255 0)
        ⟨readyNow, [], neverReady, []⟩).1 = true :=
  ⟨by decide, by decide,
    claim_C10 [1, 2, 3, 4] 0 0 [0, 0, 0, 0, 0, 0] (List.replicate 255 0)
      ⟨readyNow, [], neverReady, []⟩ (by decide) (by decide)⟩

/-- Claim C4: a response frame that passes every frame check (preamble,
start bytes, length checksum, payload checksum, postamble) is still
rejected by `pn532_read_response` whenever the direction byte of its
payload is not 0xD5 or its command-echo byte is not `cmd + 1`. -/
theorem claim_C4 (cmd maxLen : Nat) (p : List Nat) (ar rr : Nat → Int × Nat)
    (ab : List Nat)
    (hready : (pn532_wait_ready rr).1 = true)
    (hlen2 : 2 ≤ p.length) (hlen : p.length ≤ 255)
    (hmis : p.getD 0 0 ≠ 0xd5 ∨ p.getD 1 0 ≠ cmd + 1) :
    pn532_read_response cmd maxLen ⟨ar, ab, rr, pn532_write_data_frame p⟩ = none := by
  have hflen : (pn532_write_data_frame p).length = p.length + 7 := by
    simp [pn532_write_data_frame]
  have htk5 : takeWith0 (pn532_write_data_frame p) 5
      = [0, 0, 255, p.length, (256 - p.length) % 256] := by
    rw [takeWith0_eq_take _ _ (by omega)]
    simp [pn532_write_data_frame]
  have hpeek : pn532_peak_response_len (takeWith0 (pn532_write_data_frame p) 5)
      = some p.length := by
    rw [htk5, pn532_peak_response_len]
    rw [if_neg (by simp [List.getD_cons_zero, List.getD_cons_succ])]
    rw [if_neg (by simp only [List.getD_cons_zero, List.getD_cons_succ]; omega)]
    simp [List.getD_cons_zero, List.getD_cons_succ]
  have hdrop : (pn532_write_data_frame p).drop 5 = p ++ [255 - (255 + p.sum) % 256, 0] := by
    simp [pn532_write_data_frame]
  have htkrest : takeWith0 ((pn532_write_data_frame p).drop 5) (p.length + 2)
      = (pn532_write_data_frame p).drop 5 := by
    apply takeWith0_of_length_eq
    rw [hdrop]; simp
  dsimp only [pn532_read_response]
  rw [hready, if_neg (by simp), hpeek]
  dsimp only
  rw [if_neg (by omega), htkrest, write_frame_read_data]
  dsimp only
  rw [if_pos hmis]

/-- Concrete C4 run: the chip is ready at once and answers command 0x02
with a frame whose checks all pass but whose direction byte is 0xD4, the
HOST to CHIP value, instead of 0xD5. -/
def chipC4 : ChipCmd := ⟨readyNow, [], readyNow, pn532_write_data_frame [0xd4, 0x03, 0x09]⟩

/-- Claim C4, witness: instantiation of the theorem at `chipC4`. -/
theorem claim_C4_witness :
    pn532_read_response 0x02 255 chipC4 = none :=
  claim_C4 0x02 255 [0xd4, 0x03, 0x09] readyNow readyNow [] (by decide) (by decide)
    (by decide) (by decide)

/-- Concrete C5 run, first early path: the chip is ready at once but the
response stream starts with 0x01, so the 5-byte header peek rejects the
preamble. -/
def chipC5a : ChipCmd := ⟨readyNow, [], readyNow, [1]⟩

/-- Concrete C5 run, second early path: the header is valid but declares
payload length 0, below the minimum of 2. -/
def chipC5b : ChipCmd := ⟨readyNow, [], readyNow, pn532_write_data_frame []⟩

/-- Claim C5 (code bug): `pn532_read_response` fails on both inputs, and
on both early-return paths (header peek failure, declared length below 2)
the chip-select trace ends with the line still asserted: the bracket is
opened by `pn532_begin_read` but `pn532_end_read` is never called before
returning, contradicting the required transfer bracket. -/
theorem claim_C5 :
    (pn532_read_response 0x32 4 chipC5a = none ∧
      csAssertedAfter (pn532_read_response_trace chipC5a) = true) ∧
    (pn532_read_response 0x32 4 chipC5b = none ∧
      csAssertedAfter (pn532_read_response_trace chipC5b) = true) := by
  decide

/-- Claim C6: after a successful fresh `pn532_poll_felica`, an immediately
following cached call (any chip behaviour, none of it exercised) succeeds
with identical idm, pmm and syscode outputs, leaves cache and buffer
unchanged, and performs no transport exchange. -/
theorem claim_C6 (cache : FelicaCache) (buf : List Nat) (c : ChipCmd)
    (out : List Nat × List Nat × List Nat) (cache2 : FelicaCache) (buf2 : List Nat)
    (h : pn532_poll_felica false cache buf c = (some out, cache2, buf2, true)) :
    ∀ c2 : ChipCmd, pn532_poll_felica true cache2 buf2 c2 = (some out, cache2, buf2, false) := by
  intro c2
  simp only [pn532_poll_felica, Bool.false_eq_true, if_false] at h
  split at h
  · exact absurd (congrArg (fun t => t.1) h) (by simp)
  · split at h
    · exact absurd (congrArg (fun t => t.1) h) (by simp)
    · simp only [Prod.mk.injEq, Option.some.injEq] at h
      obtain ⟨h1, h2, h3, -⟩ := h
      subst h2 h3
      rw [pn532_poll_felica, if_pos rfl]
      simp only [takeWith0_idem]
      rw [h1]

/-- Concrete successful FeliCa poll: response body of length 22 with tag
count 1, inlist tag 1, sub-length 20, followed by idm, pmm and system
code. -/
def felicaBody : List Nat :=
  [1, 1, 20, 0, 1, 2, 3, 4, 5, 6, 7, 8, 11, 12, 13, 14, 15, 16, 17, 18, 0x88, 0xb4]

/-- Chip behaviour answering a FeliCa poll (command 0x4a, echo 0x4b) with
`felicaBody`. -/
def chipC6 : ChipCmd :=
  ⟨readyNow, [0, 0, 255, 0, 255, 0], readyNow, pn532_write_data_frame ([0xd5, 0x4b] ++ felicaBody)⟩

/-- The idm a fresh poll of `chipC6` reports. -/
def idmW : List Nat := [1, 2, 3, 4, 5, 6, 7, 8]

/-- The pmm a fresh poll of `chipC6` reports. -/
def pmmW : List Nat := [11, 12, 13, 14, 15, 16, 17, 18]

/-- The system code a fresh poll of `chipC6` reports. -/
def sysW : List Nat := [0x88, 0xb4]

/-- Cache contents after a fresh poll of `chipC6`. -/
def cacheW : FelicaCache := ⟨idmW, pmmW, sysW, 1⟩

/-- Shared read buffer contents after a fresh poll of `chipC6`. -/
def bufW : List Nat := felicaBody ++ List.replicate 233 0

set_option maxRecDepth 40000 in
/-- Claim C6, witness: a concrete fresh poll succeeds and the theorem
yields the cached call with identical outputs and no transport use. -/
theorem claim_C6_witness :
    pn532_poll_felica true cacheW bufW chipC6
      = (some (idmW, pmmW, sysW), cacheW, bufW, false) :=
  claim_C6 ⟨List.replicate 8 0, List.replicate 8 0, [0, 0], 0⟩ (List.replicate 255 0)
    chipC6 (idmW, pmmW, sysW) cacheW bufW (by decide) chipC6

/-- Chip behaviour for the C9 run: the acknowledge bytes are wrong (the
command write fails, `pn532_write_command` returns 0), yet the chip then
answers the firmware-version command 0x02 with a fully valid response
frame carrying the payload D5 03 32 01 06 07. -/
def chipC9 : ChipCmd :=
  ⟨readyNow, [1, 2, 3, 4, 5, 6], readyNow,
    pn532_write_data_frame [0xd5, 0x03, 0x32, 0x01, 0x06, 0x07]⟩

set_option maxRecDepth 40000 in
/-- Claim C9 (code bug): on `chipC9` the command write fails
(`pn532_write_command` returns 0, its failure value), but because
`pn532_firmware_ver` only tests `ret < 0` — a test the 0-or-1 return of
`pn532_write_data` can never satisfy — it does not return the 0 sentinel:
it reads the response and returns 0x32010607.  The scenario packing of
the spec (payload D5 03 32 01 06 07 giving 0x32010607) is confirmed by
the same evaluation. -/
theorem claim_C9 :
    pn532_write_command_ret chipC9 = 0 ∧ pn532_firmware_ver chipC9 = 0x32010607 := by
  decide

end PN532
